import Mathlib

/-!
Shallow embedding of the session / transport management layer of the
odoo-react-native repository:

* `AuthService` embeds `src/api/authService.ts` (`login`, `refreshToken`,
  `logout`, `checkAuthStatus`): asynchronous JS functions become pure Lean
  functions over an explicit `Storage` (the AsyncStorage key set), with the
  outcome of every network request supplied as an explicit `HttpOutcome`
  argument, and the list of performed side effects (storage reads/writes and
  `fetch` calls) returned as an `Effect` trace.  A JS `throw` of a tagged
  error becomes `Except AuthErr`.
* `MCP` embeds the `MCPService` class (`connect`, the `auth_error` socket
  handler, `processQuery` with its WebSocket and REST paths) with the service
  fields as an explicit `MCPState` record.
* `AuthSlice` embeds the Redux auth slice reducer (plain actions plus the
  `login` / `logoutThunk` / `checkAuthStatus` async-thunk cases).
* `TwoRefresh` is a small-step interleaving model of two overlapping calls to
  `authService.refreshToken`, used to settle the single-flight claim.

JS string truthiness (`""`, `null`, `undefined` are falsy) is modelled by
`truthy` on `Option String`; `a || b` on strings by `jsOrNone` / `jsOrStr`;
`String.prototype.trim` by `jsTrim`.  JSON-serialized values (the stored
`user` object) are carried as opaque strings: `JSON.parse` of a value
produced by `JSON.stringify` succeeds, and no claim depends on its shape.
-/

/-- JS truthiness of a `string | null | undefined` value: `null`, `undefined`
and the empty string are falsy. -/
def truthy : Option String → Bool
  | none => false
  | some s => !s.isEmpty

/-- JS `x || null` (also `x || undefined`) for a `string | null | undefined`
value: a missing or empty string collapses to `none`. -/
def jsOrNone : Option String → Option String
  | none => none
  | some s => if s.isEmpty then none else some s

/-- JS `x || d` where `d` is a non-empty default string. -/
def jsOrStr (o : Option String) (d : String) : String :=
  match o with
  | none => d
  | some s => if s.isEmpty then d else s

/-- JS `a || b || d` for two optional strings with a default, as in
`errorData.error || errorData.message || fallback`. -/
def jsOr2Str (a b : Option String) (d : String) : String :=
  jsOrStr a (jsOrStr b d)

/-- White-space characters removed by `String.prototype.trim` (ASCII subset:
space, tab, line feed, carriage return, vertical tab, form feed, NBSP). -/
def isJsSpace (c : Char) : Bool :=
  c = ' ' || c = '\t' || c = '\n' || c = '\r' ||
  c = Char.ofNat 11 || c = Char.ofNat 12 || c = Char.ofNat 0xa0

/-- JS `String.prototype.trim`: drop white space from both ends. -/
def jsTrim (s : String) : String :=
  ⟨(((s.data.dropWhile isJsSpace).reverse.dropWhile isJsSpace).reverse)⟩

/-- `API_URL` from `src/utils/config.ts`: `${PROXY_URL}/api` with
`PROXY_URL = 'http://localhost:3000'`. -/
def API_URL : String := "http://localhost:3000/api"

/-- `SOCKET_URL` from `src/utils/config.ts` (`= PROXY_URL`). -/
def SOCKET_URL : String := "http://localhost:3000"

/-- One observable side effect of a service call: an AsyncStorage operation,
an HTTP `fetch`, or a socket-level action of `MCPService`. -/
inductive Effect where
  | storageGet (key : String)
  | storageSet (key : String) (value : String)
  | storageRemove (key : String)
  | fetch (url : String)
  | socketInit (url : String) (token : String)
  | socketConnectCall
  | socketEmit (event : String)
  | notifyListeners (connected : Bool)
deriving DecidableEq

/-- Is an effect a network request (`fetch`)? -/
def Effect.isFetch : Effect → Bool
  | .fetch _ => true
  | _ => false

/-- The persisted AsyncStorage keys used by the auth service
(`STORAGE_KEYS`): `access_token`, `refresh_token`, `username`, `server_url`,
`user` (JSON-serialized). -/
structure Storage where
  access_token : Option String
  refresh_token : Option String
  username : Option String
  server_url : Option String
  user : Option String
deriving DecidableEq

/-- Storage with every key absent. -/
def Storage.empty : Storage :=
  { access_token := none, refresh_token := none, username := none,
    server_url := none, user := none }

/-- A thrown `AuthError`: message plus the optional `code` property attached
via `Object.assign`. -/
structure AuthErr where
  message : String
  code : Option String
deriving DecidableEq

/-- The `user` object of an `AuthResponse`. -/
structure User where
  id : Int
  name : String
  username : String
deriving DecidableEq

/-- Opaque stand-in for `JSON.stringify(user)`. -/
def jsonStringifyUser (u : User) : String :=
  "\x7bid:" ++ toString u.id ++ ",name:" ++ u.name ++
    ",username:" ++ u.username ++ "\x7d"

/-- Body of a successful `/auth/login` response (`AuthResponse`): access
token, refresh token and user record (per the external-interface contract the
login response carries both tokens). -/
structure AuthResponse where
  accessToken : String
  refreshToken : String
  user : User
deriving DecidableEq

/-- Body of a successful `/auth/refresh` response: a new access token and an
optional rotated refresh token. -/
structure RefreshBody where
  accessToken : String
  refreshToken : Option String
deriving DecidableEq

/-- Outcome of one `fetch` call, supplied as an oracle argument:
`ok` (2xx with parsed body), `httpError` (non-2xx, with the `error` /
`message` fields of the parsed error JSON, `none` when absent or when the
body fails to parse), or `networkFailure` (the `TypeError` with message
containing `Network request failed`). -/
inductive HttpOutcome (α : Type) where
  | ok (body : α)
  | httpError (status : Nat) (error : Option String) (message : Option String)
  | networkFailure
deriving DecidableEq

namespace AuthService

/-- `authService.login(username, password, serverUrl)` over explicit storage
and a network oracle.  Returns the JS result (`Except` for throw), the
storage after the call, and the effect trace in program order. -/
def login (username password serverUrl : String)
    (net : HttpOutcome AuthResponse) (st : Storage) :
    Except AuthErr AuthResponse × Storage × List Effect :=
  if (jsTrim username).isEmpty then
    (.error ⟨"Username is required", some "INVALID_INPUT"⟩, st, [])
  else if (jsTrim password).isEmpty then
    (.error ⟨"Password is required", some "INVALID_INPUT"⟩, st, [])
  else if (jsTrim serverUrl).isEmpty then
    (.error ⟨"Server URL is required", some "INVALID_INPUT"⟩, st, [])
  else
    match net with
    | .ok data =>
        (.ok data,
         { st with
            access_token := some data.accessToken,
            refresh_token := some data.refreshToken,
            username := some username,
            server_url := some serverUrl,
            user := some (jsonStringifyUser data.user) },
         [.fetch (API_URL ++ "/auth/login"),
          .storageSet "access_token" data.accessToken,
          .storageSet "refresh_token" data.refreshToken,
          .storageSet "username" username,
          .storageSet "server_url" serverUrl,
          .storageSet "user" (jsonStringifyUser data.user)])
    | .httpError status e m =>
        (.error ⟨jsOr2Str e m ("Authentication failed with status " ++ toString status),
                 some "AUTH_FAILED"⟩,
         st, [.fetch (API_URL ++ "/auth/login")])
    | .networkFailure =>
        (.error ⟨"Cannot connect to proxy server at " ++ API_URL ++
                   ". Please check your network connection.",
                 some "NETWORK_ERROR"⟩,
         st, [.fetch (API_URL ++ "/auth/login")])

/-- `authService.refreshToken()` over explicit storage and a network oracle.
The missing-refresh-token path throws a plain `Error` (no `code` property). -/
def refreshToken (st : Storage) (net : HttpOutcome RefreshBody) :
    Except AuthErr String × Storage × List Effect :=
  if !truthy st.refresh_token then
    (.error ⟨"No refresh token available", none⟩, st, [.storageGet "refresh_token"])
  else
    match net with
    | .ok data =>
        let st1 := { st with access_token := some data.accessToken }
        let st2 :=
          if truthy data.refreshToken then { st1 with refresh_token := data.refreshToken }
          else st1
        (.ok data.accessToken, st2,
         [.storageGet "refresh_token", .fetch (API_URL ++ "/auth/refresh"),
          .storageSet "access_token" data.accessToken] ++
         (if truthy data.refreshToken then
            [.storageSet "refresh_token" (data.refreshToken.getD "")]
          else []))
    | .httpError status e m =>
        (.error ⟨jsOr2Str e m ("Token refresh failed with status " ++ toString status),
                 some "REFRESH_FAILED"⟩,
         st, [.storageGet "refresh_token", .fetch (API_URL ++ "/auth/refresh")])
    | .networkFailure =>
        (.error ⟨"Cannot connect to proxy server at " ++ API_URL ++
                   ". Please check your network connection.",
                 some "NETWORK_ERROR"⟩,
         st, [.storageGet "refresh_token", .fetch (API_URL ++ "/auth/refresh")])

/-- `authService.logout()`: best-effort remote logout (response and failure
ignored — the inner `catch` only logs), then unconditional removal of all
five persisted keys.  The network outcome argument is ignored by
construction, exactly as in the source. -/
def logout (st : Storage) (net : HttpOutcome Unit) :
    Except AuthErr Unit × Storage × List Effect :=
  let callEffects :=
    if truthy st.access_token && truthy st.refresh_token then
      match net with
      | _ => [Effect.fetch (API_URL ++ "/auth/logout")]
    else []
  (.ok (), Storage.empty,
   [.storageGet "access_token", .storageGet "refresh_token"] ++ callEffects ++
   [.storageRemove "access_token", .storageRemove "refresh_token",
    .storageRemove "username", .storageRemove "server_url", .storageRemove "user"])

/-- Result shape of `authService.checkAuthStatus` (`AuthStatus`). -/
structure AuthStatus where
  isLoggedIn : Bool
  token : Option String
  refreshToken : Option String
  username : Option String
  serverUrl : Option String
  user : Option String
deriving DecidableEq

/-- `authService.checkAuthStatus()`: reads the five keys, reports logged-in
iff access token, username and server URL are all truthy.  Performs no
network request. -/
def checkAuthStatus (st : Storage) : AuthStatus × List Effect :=
  let gets := [Effect.storageGet "access_token", Effect.storageGet "refresh_token",
               Effect.storageGet "username", Effect.storageGet "server_url",
               Effect.storageGet "user"]
  if truthy st.access_token && truthy st.username && truthy st.server_url then
    ({ isLoggedIn := true, token := st.access_token,
       refreshToken := jsOrNone st.refresh_token,
       username := st.username, serverUrl := st.server_url,
       user := jsOrNone st.user }, gets)
  else
    ({ isLoggedIn := false, token := none, refreshToken := none,
       username := none, serverUrl := none, user := none }, gets)

end AuthService

namespace LoginScreen

/-- JS regex test `/^https?:\/\/.+/i.test(serverUrl)`: a case-insensitive
`http://` or `https://` at the start of the string, followed by at least one
character that is not a line terminator. -/
def urlRegexTest (s : String) : Bool :=
  let notTerm : Char → Bool := fun c =>
    !(c = '\n' || c = '\r' || c = Char.ofNat 0x2028 || c = Char.ofNat 0x2029)
  let cs := s.data.map Char.toLower
  if cs.take 8 = "https://".data then
    match cs.drop 8 with
    | [] => false
    | c :: _ => notTerm c
  else if cs.take 7 = "http://".data then
    match cs.drop 7 with
    | [] => false
    | c :: _ => notTerm c
  else false

/-- Result of `LoginScreen.validateForm`: the returned flag plus the three
field-error strings it sets (empty string = no error, matching the reset to
`''`). -/
structure ValidateResult where
  isValid : Bool
  usernameError : String
  passwordError : String
  serverUrlError : String
deriving DecidableEq

/-- `LoginScreen.validateForm` over the three form fields. -/
def validateForm (username password serverUrl : String) : ValidateResult :=
  let uErr := if (jsTrim username).isEmpty then "Username is required" else ""
  let pErr := if (jsTrim password).isEmpty then "Password is required" else ""
  let sErr :=
    if (jsTrim serverUrl).isEmpty then "Server URL is required"
    else if !urlRegexTest serverUrl then "URL must start with http:// or https://"
    else ""
  { isValid := uErr.isEmpty && pErr.isEmpty && sErr.isEmpty,
    usernameError := uErr, passwordError := pErr, serverUrlError := sErr }

end LoginScreen

namespace MCP

/-- `MCPConnectionOptions` with all fields present (the service's defaults
are `{reconnectAttempts: 5, reconnectInterval: 2000, timeout: 10000}`). -/
structure ConnectionOptions where
  reconnectAttempts : Nat
  reconnectInterval : Nat
  timeout : Nat
deriving DecidableEq

/-- A `Partial<MCPConnectionOptions>` argument. -/
structure OptionsPatch where
  reconnectAttempts : Option Nat
  reconnectInterval : Option Nat
  timeout : Option Nat
deriving DecidableEq

/-- JS spread merge `{ ...defaults, ...patch }`. -/
def mergeOptions (base : ConnectionOptions) (p : OptionsPatch) : ConnectionOptions :=
  { reconnectAttempts := p.reconnectAttempts.getD base.reconnectAttempts,
    reconnectInterval := p.reconnectInterval.getD base.reconnectInterval,
    timeout := p.timeout.getD base.timeout }

/-- The mutable fields of the `MCPService` instance.  `socketExists` models
`this.socket !== null`; `socketAuthToken` models `this.socket.auth.token`. -/
structure MCPState where
  isConnected : Bool
  serverUrl : Option String
  token : Option String
  socketExists : Bool
  socketAuthToken : Option String
  socketReady : Bool
  connectionOptions : ConnectionOptions
deriving DecidableEq

/-- A freshly constructed `MCPService`. -/
def initialMCPState : MCPState :=
  { isConnected := false, serverUrl := none, token := none,
    socketExists := false, socketAuthToken := none, socketReady := false,
    connectionOptions := ⟨5, 2000, 10000⟩ }

/-- The awaited socket handshake inside `connect`: resolves when the
`connect` event fires before the timer, otherwise rejects with
`Socket connection timeout` (via the timer or the `connect_timeout` event;
`connect_error` alone does not reject). -/
def socketHandshake (handshakeOk : Bool) : Except String Unit :=
  if handshakeOk then .ok () else .error "Socket connection timeout"

/-- `MCPService.connect(serverUrl, token, options?)`.  `ioAvailable` models
whether the `socket.io-client` require succeeded; `handshakeOk` is the
handshake oracle.  The result is `Except` over the thrown-error type to make
the outer `try`/`catch` boundary explicit: every branch below is produced by
the `try` body or by a `catch`, so the function never surfaces a rejection. -/
def connect (ioAvailable handshakeOk : Bool) (serverUrl token : String)
    (options : Option OptionsPatch) (st : MCPState) :
    Except String (Bool × MCPState × List Effect) :=
  let stOpts :=
    match options with
    | some p => { st with connectionOptions := mergeOptions st.connectionOptions p }
    | none => st
  let st0 := { stOpts with serverUrl := some serverUrl, token := some token }
  if ioAvailable then
    let stSock := { st0 with socketExists := true, socketAuthToken := some token }
    match socketHandshake handshakeOk with
    | .ok () =>
        let st1 := { stSock with socketReady := true, isConnected := true }
        .ok (st1.isConnected, st1,
             [.socketInit SOCKET_URL token, .notifyListeners st1.isConnected])
    | .error _ =>
        let st1 := { stSock with isConnected := true }
        .ok (st1.isConnected, st1,
             [.socketInit SOCKET_URL token, .notifyListeners st1.isConnected])
  else
    let st1 := { st0 with isConnected := true }
    .ok (st1.isConnected, st1, [.notifyListeners st1.isConnected])

/-- The `auth_error` socket handler installed by
`setupSocketEventHandlers`: re-reads `access_token` from AsyncStorage; if a
token is present it updates `socket.auth.token` and calls
`socket.connect()`; otherwise it marks the service disconnected and notifies
listeners.  It performs no `fetch` and does not call
`authService.refreshToken`. -/
def onAuthError (st : MCPState) (storage : Storage) : MCPState × List Effect :=
  if truthy storage.access_token then
    ({ st with socketAuthToken := storage.access_token },
     [.storageGet "access_token", .socketConnectCall])
  else
    ({ st with isConnected := false, socketReady := false },
     [.storageGet "access_token", .notifyListeners false])

/-- A `Query Response` (`MCPResponse` tagged union). -/
inductive MCPResponse where
  | text (content : String)
  | image (content : String)
  | list (title : String) (items : List String)
  | table (headers : List String) (rows : List (List String))
  | error (content : String) (code : Option String)
deriving DecidableEq

/-- Outcome of the `process_query` socket emit: the acknowledgment arrives
with a result, arrives with an `error` field (reject), or the response timer
fires first (reject with `Socket response timeout`). -/
inductive SocketQueryOutcome where
  | ack (result : MCPResponse)
  | ackError (msg : String)
  | timedOut
deriving DecidableEq

/-- `MCPService.processQueryViaREST(query)`: reads the token, posts to
`{API_URL}/mcp/query`, and converts every failure into an error-tagged
response (its own `catch` never rethrows). -/
def processQueryViaREST (storage : Storage) (net : HttpOutcome MCPResponse) :
    MCPResponse × List Effect :=
  if !truthy storage.access_token then
    (.error "No authentication token available" (some "REST_API_ERROR"),
     [.storageGet "access_token"])
  else
    match net with
    | .ok result =>
        (result, [.storageGet "access_token", .fetch (API_URL ++ "/mcp/query")])
    | .httpError status e m =>
        (.error (jsOr2Str e m ("Query failed with status " ++ toString status))
           (some "REST_API_ERROR"),
         [.storageGet "access_token", .fetch (API_URL ++ "/mcp/query")])
    | .networkFailure =>
        (.error ("Cannot connect to MCP API at " ++ API_URL ++
                   ". Please check your network connection.")
           (some "NETWORK_ERROR"),
         [.storageGet "access_token", .fetch (API_URL ++ "/mcp/query")])

/-- `MCPService.processQuery(query)`: empty-input check, connection check,
then the WebSocket path (falling back to REST on its rejection) or the REST
path directly. -/
def processQuery (query : String) (st : MCPState) (storage : Storage)
    (sock : SocketQueryOutcome) (net : HttpOutcome MCPResponse) :
    MCPResponse × List Effect :=
  if (jsTrim query).isEmpty then
    (.error "Query cannot be empty" (some "EMPTY_QUERY"), [])
  else if !st.isConnected then
    (.error "Not connected to MCP service" (some "NOT_CONNECTED"), [])
  else if st.socketExists && st.socketReady then
    match sock with
    | .ack result => (result, [.socketEmit "process_query"])
    | .ackError _ =>
        let (r, es) := processQueryViaREST storage net
        (r, .socketEmit "process_query" :: es)
    | .timedOut =>
        let (r, es) := processQueryViaREST storage net
        (r, .socketEmit "process_query" :: es)
  else
    processQueryViaREST storage net

end MCP

namespace AuthSlice

/-- The Redux `AuthState` of the auth slice. -/
structure AuthState where
  isLoggedIn : Bool
  token : Option String
  refreshToken : Option String
  username : Option String
  serverUrl : Option String
  user : Option String
  loading : Bool
  error : Option String
deriving DecidableEq

/-- The slice's `initialState`. -/
def authInitialState : AuthState :=
  { isLoggedIn := false, token := none, refreshToken := none, username := none,
    serverUrl := none, user := none, loading := false, error := none }

/-- Payload of the plain `loginSuccess` action. -/
structure LoginSuccessPayload where
  token : String
  refreshToken : Option String
  username : String
  serverUrl : String
  user : Option String
deriving DecidableEq

/-- Actions handled by the auth slice: the plain reducers plus the
pending/fulfilled/rejected cases of the `login`, `logoutThunk` and
`checkAuthStatus` async thunks.  Rejected payloads are the (possibly absent)
`rejectWithValue` strings. -/
inductive AuthAction where
  | loginStart
  | loginSuccess (p : LoginSuccessPayload)
  | loginFailure (msg : String)
  | logoutAction
  | clearError
  | loginPending
  | loginFulfilled (r : AuthResponse)
  | loginRejected (msg : Option String)
  | logoutPending
  | logoutFulfilled
  | logoutRejected (msg : Option String)
  | checkPending
  | checkFulfilled (a : AuthService.AuthStatus)
  | checkRejected
deriving DecidableEq

/-- The auth slice reducer (plain reducers and `extraReducers`).  Note that
`login.fulfilled` does not touch `serverUrl`, and `checkAuthStatus.fulfilled`
updates the session fields only when the payload reports `isLoggedIn`. -/
def authReducer (s : AuthState) : AuthAction → AuthState
  | .loginStart => { s with loading := true, error := none }
  | .loginSuccess p =>
      { isLoggedIn := true, token := some p.token,
        refreshToken := jsOrNone p.refreshToken,
        username := some p.username, serverUrl := some p.serverUrl,
        user := jsOrNone p.user, loading := false, error := none }
  | .loginFailure msg => { s with loading := false, error := some msg }
  | .logoutAction => authInitialState
  | .clearError => { s with error := none }
  | .loginPending => { s with loading := true, error := none }
  | .loginFulfilled r =>
      { s with isLoggedIn := true, token := some r.accessToken,
               refreshToken := jsOrNone (some r.refreshToken),
               username := some r.user.username,
               user := some (jsonStringifyUser r.user),
               loading := false, error := none }
  | .loginRejected msg => { s with loading := false, error := some (jsOrStr msg "Login failed") }
  | .logoutPending => { s with loading := true }
  | .logoutFulfilled => authInitialState
  | .logoutRejected msg =>
      { authInitialState with error := some (jsOrStr msg "Logout failed") }
  | .checkPending => { s with loading := true }
  | .checkFulfilled a =>
      if a.isLoggedIn then
        { s with isLoggedIn := true, token := jsOrNone a.token,
                 refreshToken := jsOrNone a.refreshToken,
                 username := jsOrNone a.username,
                 serverUrl := jsOrNone a.serverUrl,
                 user := jsOrNone a.user, loading := false }
      else { s with loading := false }
  | .checkRejected => { s with loading := false }

/-- Dispatchable actions: every action is dispatchable, except that a
`checkAuthStatus.fulfilled` payload is always a value actually produced by
`authService.checkAuthStatus` on some storage (the thunk simply forwards the
service result). -/
def ActionOk : AuthAction → Prop
  | .checkFulfilled a => ∃ stor : Storage, a = (AuthService.checkAuthStatus stor).1
  | _ => True

/-- States reachable from `initialState` by dispatchable actions. -/
inductive ReachableAuth : AuthState → Prop where
  | init : ReachableAuth authInitialState
  | step {s : AuthState} (a : AuthAction) :
      ReachableAuth s → ActionOk a → ReachableAuth (authReducer s a)

end AuthSlice

deriving instance DecidableEq for Except

namespace TwoRefresh

/-- Program counter of one in-flight `authService.refreshToken()` call,
split at its `await` points: about to read the refresh token; holding the
value read (a local variable, immune to later storage writes); having issued
the `fetch`; finished with a result. -/
inductive RCPc where
  | start
  | gotTok (t : Option String)
  | fetched
  | done (r : Except AuthErr String)
deriving DecidableEq

/-- Advance one call by one step.  `net` is that call's own network oracle.
A finished call no longer moves. -/
def rcStep (net : HttpOutcome RefreshBody) :
    RCPc → Storage → RCPc × Storage × List Effect
  | .start, st => (.gotTok st.refresh_token, st, [.storageGet "refresh_token"])
  | .gotTok t, st =>
      if !truthy t then
        (.done (.error ⟨"No refresh token available", none⟩), st, [])
      else
        (.fetched, st, [.fetch (API_URL ++ "/auth/refresh")])
  | .fetched, st =>
      (match net with
       | .ok data =>
           let st1 := { st with access_token := some data.accessToken }
           let st2 :=
             if truthy data.refreshToken then { st1 with refresh_token := data.refreshToken }
             else st1
           (.done (.ok data.accessToken), st2,
            [.storageSet "access_token" data.accessToken] ++
            (if truthy data.refreshToken then
               [.storageSet "refresh_token" (data.refreshToken.getD "")]
             else []))
       | .httpError status e m =>
           (.done (.error ⟨jsOr2Str e m ("Token refresh failed with status " ++ toString status),
                           some "REFRESH_FAILED"⟩), st, [])
       | .networkFailure =>
           (.done (.error ⟨"Cannot connect to proxy server at " ++ API_URL ++
                             ". Please check your network connection.",
                           some "NETWORK_ERROR"⟩), st, []))
  | .done r, st => (.done r, st, [])

/-- Joint configuration of two overlapping `refreshToken` calls: shared
storage, both program counters, and the interleaved effect trace. -/
structure Config where
  stor : Storage
  pcA : RCPc
  pcB : RCPc
  trace : List Effect
deriving DecidableEq

/-- Run a schedule: `true` advances call A, `false` advances call B.  The
event loop serializes the two calls, so an arbitrary boolean schedule covers
every possible interleaving of their await points. -/
def run (netA netB : HttpOutcome RefreshBody) : List Bool → Config → Config
  | [], c => c
  | b :: rest, c =>
      if b then
        let (pc', st', es) := rcStep netA c.pcA c.stor
        run netA netB rest { stor := st', pcA := pc', pcB := c.pcB, trace := c.trace ++ es }
      else
        let (pc', st', es) := rcStep netB c.pcB c.stor
        run netA netB rest { stor := st', pcA := c.pcA, pcB := pc', trace := c.trace ++ es }

/-- Has a call finished? -/
def RCPc.isDone : RCPc → Bool
  | .done _ => true
  | _ => false

/-- Fetches already issued by a call whose pc never took the
missing-token branch. -/
def pcFetches : RCPc → Nat
  | .start => 0
  | .gotTok _ => 0
  | .fetched => 1
  | .done _ => 1

/-- Initial configuration: both calls at their entry point. -/
def initConfig (stor : Storage) : Config :=
  { stor := stor, pcA := .start, pcB := .start, trace := [] }

end TwoRefresh

namespace TwoRefresh

/-- Invariant of the two-call interleaving: the persisted refresh token stays
truthy (no step removes it), a read value held by a call is truthy, and the
number of refresh fetches in the trace equals the progress of the two calls. -/
def Inv (c : Config) : Prop :=
  truthy c.stor.refresh_token = true ∧
  (∀ t, c.pcA = .gotTok t → truthy t = true) ∧
  (∀ t, c.pcB = .gotTok t → truthy t = true) ∧
  c.trace.countP Effect.isFetch = pcFetches c.pcA + pcFetches c.pcB

end TwoRefresh

/-- A string all of whose characters are JS white space trims to empty. -/
theorem jsTrim_blank (s : String) (h : ∀ c ∈ s.data, isJsSpace c = true) :
    (jsTrim s).isEmpty = true := by
  unfold jsTrim
  rw [List.dropWhile_eq_nil_iff.mpr h]
  rfl

/-- A non-empty string is truthy. -/
theorem truthy_some_of_ne {s : String} (h : s ≠ "") : truthy (some s) = true := by
  have hf : s.isEmpty = false := by
    cases hEmpty : s.isEmpty
    · rfl
    · exact absurd ((String.isEmpty_iff s).mp (by simp [hEmpty])) h
  simp [truthy, hf]

/-- A truthy optional string is a non-empty `some` and survives `x || null`. -/
theorem jsOrNone_of_truthy {o : Option String} (h : truthy o = true) :
    jsOrNone o = o ∧ o ≠ none := by
  cases o with
  | none => simp [truthy] at h
  | some s =>
      refine ⟨?_, by simp⟩
      simp only [truthy, Bool.not_eq_true'] at h
      simp [jsOrNone, h]

/-- Claim C9 (confirmed): for every input string that is empty or
whitespace-only, `processQuery` returns an error-tagged response with code
`EMPTY_QUERY` and issues no network call — neither a socket emit nor a REST
fetch: the effect trace is empty. -/
theorem processQuery_blank_empty_query
    (q : String) (st : MCP.MCPState) (storage : Storage)
    (sock : MCP.SocketQueryOutcome) (net : HttpOutcome MCP.MCPResponse)
    (h : ∀ c ∈ q.data, isJsSpace c = true) :
    MCP.processQuery q st storage sock net =
      (.error "Query cannot be empty" (some "EMPTY_QUERY"), []) := by
  unfold MCP.processQuery
  rw [jsTrim_blank q h]
  simp

/-- Witness for C9 at the whitespace-only query `"  "`. -/
theorem processQuery_blank_empty_query_witness :
    MCP.processQuery "  " MCP.initialMCPState Storage.empty
        (.ack (.text "ignored")) .networkFailure =
      (.error "Query cannot be empty" (some "EMPTY_QUERY"), []) :=
  processQuery_blank_empty_query "  " MCP.initialMCPState Storage.empty
    (.ack (.text "ignored")) .networkFailure (by decide)

/-- Claim C10 (confirmed): `checkAuthStatus` performs no network call at all
(in particular no token refresh), and reports `isLoggedIn: false` whenever
the access token, the username, or the server URL is absent from persisted
storage — even when a refresh token is still persisted (the storage is
arbitrary in its other fields). -/
theorem checkAuthStatus_missing_fields_not_logged_in (stor : Storage) :
    (AuthService.checkAuthStatus stor).2.countP Effect.isFetch = 0 ∧
    ((stor.access_token = none ∨ stor.username = none ∨ stor.server_url = none) →
      (AuthService.checkAuthStatus stor).1.isLoggedIn = false) := by
  constructor
  · unfold AuthService.checkAuthStatus
    split <;> rfl
  · intro h
    rcases h with h | h | h <;> simp [AuthService.checkAuthStatus, h, truthy]

/-- Witness for C10: storage holding only a refresh token. -/
theorem checkAuthStatus_missing_fields_not_logged_in_witness :
    (AuthService.checkAuthStatus { Storage.empty with refresh_token := some "r" }).2.countP
        Effect.isFetch = 0 ∧
    (AuthService.checkAuthStatus { Storage.empty with refresh_token := some "r" }).1.isLoggedIn
        = false :=
  ⟨(checkAuthStatus_missing_fields_not_logged_in _).1,
   (checkAuthStatus_missing_fields_not_logged_in _).2 (Or.inl rfl)⟩

/-- Claim C7 (confirmed): `logout` is total and idempotent at the local
level: for every storage (including the already-logged-out one) and every
outcome of the remote logout request (including network failure), it
resolves without throwing, removes all persisted credential keys (final
storage is empty), and the `logoutThunk.fulfilled` reducer resets any
session state to the initial empty state. -/
theorem logout_total_idempotent_clears (stor : Storage) (net : HttpOutcome Unit)
    (s : AuthSlice.AuthState) :
    ∃ es, AuthService.logout stor net = (.ok (), Storage.empty, es) ∧
      AuthSlice.authReducer s .logoutFulfilled = AuthSlice.authInitialState :=
  ⟨_, rfl, rfl⟩

/-- Claim C4 (confirmed): for every server URL, token and options, `connect`
never surfaces a handshake failure as an exception: it always returns
`.ok` with the boolean `true`, the service is marked connected, and when the
socket library is unavailable or the handshake fails (or times out) the
fallback path leaves `socketReady` untouched — the stateless path carries
the session.  Failures are observable only through the returned boolean and
the listener notification in the effect trace. -/
theorem connect_handshake_failure_returns_true
    (ioAvailable handshakeOk : Bool) (serverUrl token : String)
    (options : Option MCP.OptionsPatch) (st : MCP.MCPState) :
    ∃ st' es, MCP.connect ioAvailable handshakeOk serverUrl token options st =
        .ok (true, st', es) ∧
      st'.isConnected = true ∧
      Effect.notifyListeners true ∈ es ∧
      ((ioAvailable = false ∨ handshakeOk = false) →
        st'.socketReady = st.socketReady) := by
  unfold MCP.connect MCP.socketHandshake
  cases ioAvailable <;> cases handshakeOk <;> cases options <;>
    exact ⟨_, _, rfl, rfl, by simp,
      fun h => by
        first
        | rfl
        | (rcases h with h | h <;> exact absurd h (by decide))⟩

/-- Witness for C4: socket library available, handshake fails — `connect`
still returns `true` and marks the service connected. -/
theorem connect_handshake_failure_returns_true_witness :
    ∃ st' es, MCP.connect true false "https://demo.odoo.com" "tok" none
        MCP.initialMCPState = .ok (true, st', es) ∧
      st'.isConnected = true ∧
      Effect.notifyListeners true ∈ es ∧
      st'.socketReady = MCP.initialMCPState.socketReady := by
  obtain ⟨st', es, h1, h2, h3, h4⟩ :=
    connect_handshake_failure_returns_true true false "https://demo.odoo.com" "tok"
      none MCP.initialMCPState
  exact ⟨st', es, h1, h2, h3, h4 (Or.inr rfl)⟩

/-- Counterexample to claim C2 as stated: with non-empty username and
password and the non-`http(s)` URL `ftp://example.com`, `authService.login`
does not fail with `INVALID_INPUT` and does issue a network call to the
authentication endpoint (here the fetch fails at network level and the
result is tagged `NETWORK_ERROR`). -/
theorem login_url_scheme_not_validated_cex :
    (AuthService.login "user" "pass" "ftp://example.com" .networkFailure
        Storage.empty).1 =
      .error ⟨"Cannot connect to proxy server at http://localhost:3000/api. Please check your network connection.",
              some "NETWORK_ERROR"⟩ ∧
    (AuthService.login "user" "pass" "ftp://example.com" .networkFailure
        Storage.empty).2.2.countP Effect.isFetch = 1 ∧
    (some "NETWORK_ERROR" : Option String) ≠ some "INVALID_INPUT" := by
  decide

/-- Claim C2 (amended): whenever username, password or server URL is empty
or whitespace-only, `authService.login` fails with an `INVALID_INPUT`-tagged
error, issues zero network calls and leaves storage untouched.  The
`^https?://` check, however, lives only in the UI's
`LoginScreen.validateForm`, which returns `false` for a non-matching URL
(blocking the login dispatch, hence no network call) but reports a field
error message rather than an `INVALID_INPUT`-tagged login failure. -/
theorem login_blank_invalid_input_and_ui_url_check
    (u p s : String) (net : HttpOutcome AuthResponse) (stor : Storage) :
    (((jsTrim u).isEmpty = true ∨ (jsTrim p).isEmpty = true ∨
        (jsTrim s).isEmpty = true) →
      ∃ e : AuthErr, AuthService.login u p s net stor = (.error e, stor, []) ∧
        e.code = some "INVALID_INPUT") ∧
    (LoginScreen.urlRegexTest s = false →
      (LoginScreen.validateForm u p s).isValid = false) := by
  constructor
  · intro h
    by_cases hu : (jsTrim u).isEmpty = true
    · exact ⟨⟨"Username is required", some "INVALID_INPUT"⟩,
        by simp [AuthService.login, hu], rfl⟩
    · by_cases hp : (jsTrim p).isEmpty = true
      · exact ⟨⟨"Password is required", some "INVALID_INPUT"⟩,
          by simp [AuthService.login, hu, hp], rfl⟩
      · have hs : (jsTrim s).isEmpty = true := by tauto
        exact ⟨⟨"Server URL is required", some "INVALID_INPUT"⟩,
          by simp [AuthService.login, hu, hp, hs], rfl⟩
  · intro hm
    unfold LoginScreen.validateForm
    by_cases hs : (jsTrim s).isEmpty = true
    · have : ("Server URL is required" : String).isEmpty = false := by decide
      simp [hs, this]
    · have : ("URL must start with http:// or https://" : String).isEmpty = false := by
        decide
      simp [hs, hm, this]

/-- Witness for C2: a whitespace-only username fails `login` with
`INVALID_INPUT` and an empty effect trace; a bad-scheme URL fails the UI
validation. -/
theorem login_blank_invalid_input_and_ui_url_check_witness :
    (∃ e : AuthErr, AuthService.login " " "pass" "https://demo.odoo.com"
        .networkFailure Storage.empty = (.error e, Storage.empty, []) ∧
      e.code = some "INVALID_INPUT") ∧
    (LoginScreen.validateForm "user" "pass" "ftp://example.com").isValid = false :=
  ⟨(login_blank_invalid_input_and_ui_url_check " " "pass" "https://demo.odoo.com"
      .networkFailure Storage.empty).1 (Or.inl (by decide)),
   (login_blank_invalid_input_and_ui_url_check "user" "pass" "ftp://example.com"
      .networkFailure Storage.empty).2 (by decide)⟩

/-- Counterexample to claim C3 as stated: on an `auth_error` event with an
access token present in storage, the handler issues no token refresh at all
(no fetch effect whatsoever, so not exactly one refresh request): it only
re-reads the persisted token and reconnects the socket with it. -/
theorem onAuthError_no_refresh_cex :
    (MCP.onAuthError MCP.initialMCPState
        { Storage.empty with access_token := some "tok" }).2 =
      [.storageGet "access_token", .socketConnectCall] ∧
    (MCP.onAuthError MCP.initialMCPState
        { Storage.empty with access_token := some "tok" }).2.countP
      Effect.isFetch ≠ 1 := by
  decide

/-- Claim C3 (amended): the `auth_error` handler never calls the Session
Manager's token refresh (its effect trace contains no network request).
When a persisted access token exists it updates the socket's auth token to
the stored value and calls `socket.connect()` once; when none exists it
marks the service disconnected, clears `socketReady` and notifies
listeners.  A single `auth_error` event thus triggers at most one reconnect
attempt and no refresh, though nothing prevents repetition across repeated
`auth_error` events. -/
theorem onAuthError_reads_stored_token
    (st : MCP.MCPState) (storage : Storage) :
    (MCP.onAuthError st storage).2.countP Effect.isFetch = 0 ∧
    (truthy storage.access_token = true →
      MCP.onAuthError st storage =
        ({ st with socketAuthToken := storage.access_token },
         [.storageGet "access_token", .socketConnectCall])) ∧
    (truthy storage.access_token = false →
      (MCP.onAuthError st storage).1.isConnected = false ∧
      (MCP.onAuthError st storage).1.socketReady = false ∧
      Effect.notifyListeners false ∈ (MCP.onAuthError st storage).2) := by
  unfold MCP.onAuthError
  by_cases h : truthy storage.access_token = true
  · simp [h, Effect.isFetch]
  · simp only [Bool.not_eq_true] at h
    simp [h, Effect.isFetch]

/-- Witness for C3: with a stored token the handler reconnects with that
token; with no stored token it marks disconnected and notifies. -/
theorem onAuthError_reads_stored_token_witness :
    MCP.onAuthError MCP.initialMCPState
        { Storage.empty with access_token := some "newTok" } =
      ({ MCP.initialMCPState with socketAuthToken := some "newTok" },
       [.storageGet "access_token", .socketConnectCall]) ∧
    (MCP.onAuthError MCP.initialMCPState Storage.empty).1.isConnected = false :=
  ⟨(onAuthError_reads_stored_token MCP.initialMCPState
      { Storage.empty with access_token := some "newTok" }).2.1 (by decide),
   ((onAuthError_reads_stored_token MCP.initialMCPState Storage.empty).2.2
      (by decide)).1⟩

/-- Counterexample to claim C8 as stated: with no persisted refresh token,
`authService.refreshToken` throws the plain error
`'No refresh token available'` whose `code` property is absent — not an
error tagged `NO_REFRESH_TOKEN`. -/
theorem refreshToken_untagged_error_cex :
    (AuthService.refreshToken Storage.empty .networkFailure).1 =
      .error ⟨"No refresh token available", none⟩ ∧
    (none : Option String) ≠ some "NO_REFRESH_TOKEN" := by
  decide

/-- Claim C8 (amended): whenever no (truthy) refresh token is persisted,
`refreshToken` fails with the untagged error message
`'No refresh token available'` (no machine code), issuing no network call
and leaving storage untouched; and on every failure — missing token, HTTP
error, or network failure — it does not remove or clear any persisted
credential (the storage after the call equals the storage before). -/
theorem refreshToken_no_token_behavior (stor : Storage)
    (net : HttpOutcome RefreshBody) :
    (truthy stor.refresh_token = false →
      AuthService.refreshToken stor net =
        (.error ⟨"No refresh token available", none⟩, stor,
         [.storageGet "refresh_token"])) ∧
    (∀ e : AuthErr, (AuthService.refreshToken stor net).1 = .error e →
      (AuthService.refreshToken stor net).2.1 = stor) := by
  constructor
  · intro h
    simp [AuthService.refreshToken, h]
  · intro e he
    unfold AuthService.refreshToken at he ⊢
    by_cases h : truthy stor.refresh_token = true
    · simp [h] at he ⊢
      cases net with
      | ok data => simp at he
      | httpError status a b => simp
      | networkFailure => simp
    · simp only [Bool.not_eq_true] at h
      simp [h]

/-- Witness for C8: empty storage, network oracle irrelevant. -/
theorem refreshToken_no_token_behavior_witness :
    AuthService.refreshToken Storage.empty (.ok ⟨"newTok", none⟩) =
      (.error ⟨"No refresh token available", none⟩, Storage.empty,
       [.storageGet "refresh_token"]) ∧
    (AuthService.refreshToken { Storage.empty with refresh_token := some "rt" }
        .networkFailure).2.1 =
      { Storage.empty with refresh_token := some "rt" } :=
  ⟨(refreshToken_no_token_behavior Storage.empty (.ok ⟨"newTok", none⟩)).1 (by decide),
   (refreshToken_no_token_behavior { Storage.empty with refresh_token := some "rt" }
      .networkFailure).2
     ⟨"Cannot connect to proxy server at http://localhost:3000/api. Please check your network connection.",
      some "NETWORK_ERROR"⟩ (by decide)⟩

/-- Counterexample to claim C6 as stated: a login that succeeds with a
server-issued access token equal to the empty string (HTTP 200, body
`{accessToken: "", refreshToken: "b", user: ...}`) resolves successfully,
but the subsequent `checkAuthStatus` over the same persisted storage
reports `isLoggedIn: false` — the empty string is falsy in the
`token && username && serverUrl` check. -/
theorem login_roundtrip_empty_token_cex :
    (AuthService.login "demo" "demo" "https://demo.odoo.com"
        (.ok ⟨"", "b", ⟨1, "Demo", "demo"⟩⟩) Storage.empty).1 =
      .ok ⟨"", "b", ⟨1, "Demo", "demo"⟩⟩ ∧
    (AuthService.checkAuthStatus
        (AuthService.login "demo" "demo" "https://demo.odoo.com"
          (.ok ⟨"", "b", ⟨1, "Demo", "demo"⟩⟩) Storage.empty).2.1).1.isLoggedIn
      = false := by
  decide

/-- Claim C6 (amended): after every successful `login(username, password,
serverUrl)` whose server-issued access token is a non-empty string, a
subsequent `checkAuthStatus` over the storage persisted by the login
reports `isLoggedIn: true` with the same `username` and the same
`serverUrl` that were passed to `login`. -/
theorem login_then_checkAuthStatus_roundtrip
    (u p s : String) (net : HttpOutcome AuthResponse) (stor : Storage)
    (r : AuthResponse)
    (hok : (AuthService.login u p s net stor).1 = .ok r)
    (htok : r.accessToken ≠ "") :
    (AuthService.checkAuthStatus (AuthService.login u p s net stor).2.1).1.isLoggedIn
        = true ∧
    (AuthService.checkAuthStatus (AuthService.login u p s net stor).2.1).1.username
        = some u ∧
    (AuthService.checkAuthStatus (AuthService.login u p s net stor).2.1).1.serverUrl
        = some s := by
  by_cases hu : (jsTrim u).isEmpty = true
  · simp [AuthService.login, hu] at hok
  · by_cases hp : (jsTrim p).isEmpty = true
    · simp [AuthService.login, hu, hp] at hok
    · by_cases hs : (jsTrim s).isEmpty = true
      · simp [AuthService.login, hu, hp, hs] at hok
      · cases net with
        | httpError status a b => simp [AuthService.login, hu, hp, hs] at hok
        | networkFailure => simp [AuthService.login, hu, hp, hs] at hok
        | ok data =>
          have hdata : data = r := by
            simpa [AuthService.login, hu, hp, hs] using hok
          subst hdata
          have hune : u ≠ "" := by
            intro h
            subst h
            exact hu (by decide)
          have hsne : s ≠ "" := by
            intro h
            subst h
            exact hs (by decide)
          have h1 : truthy (some data.accessToken) = true := truthy_some_of_ne htok
          have h2 : truthy (some u) = true := truthy_some_of_ne hune
          have h3 : truthy (some s) = true := truthy_some_of_ne hsne
          simp [AuthService.login, AuthService.checkAuthStatus, hu, hp, hs,
            h1, h2, h3]

/-- Witness for C6: the end-to-end demo login round-trips through
`checkAuthStatus`. -/
theorem login_then_checkAuthStatus_roundtrip_witness :
    (AuthService.checkAuthStatus
        (AuthService.login "demo" "demo" "https://demo.odoo.com"
          (.ok ⟨"a", "b", ⟨1, "Demo", "demo"⟩⟩) Storage.empty).2.1).1.isLoggedIn
        = true ∧
    (AuthService.checkAuthStatus
        (AuthService.login "demo" "demo" "https://demo.odoo.com"
          (.ok ⟨"a", "b", ⟨1, "Demo", "demo"⟩⟩) Storage.empty).2.1).1.username
        = some "demo" ∧
    (AuthService.checkAuthStatus
        (AuthService.login "demo" "demo" "https://demo.odoo.com"
          (.ok ⟨"a", "b", ⟨1, "Demo", "demo"⟩⟩) Storage.empty).2.1).1.serverUrl
        = some "https://demo.odoo.com" :=
  login_then_checkAuthStatus_roundtrip "demo" "demo" "https://demo.odoo.com"
    (.ok ⟨"a", "b", ⟨1, "Demo", "demo"⟩⟩) Storage.empty
    ⟨"a", "b", ⟨1, "Demo", "demo"⟩⟩ (by decide) (by decide)

/-- Claim C5 (confirmed): in every state reachable from the initial auth
state by any sequence of slice actions (plain reducers and the async-thunk
cases, with `checkAuthStatus.fulfilled` payloads produced by the service),
`isLoggedIn = true` implies the token field is not `null`. -/
theorem auth_isLoggedIn_implies_token {s : AuthSlice.AuthState}
    (h : AuthSlice.ReachableAuth s) : s.isLoggedIn = true → s.token ≠ none := by
  induction h with
  | init => intro hl; simp [AuthSlice.authInitialState] at hl
  | step a hr hok ih =>
    intro hl
    cases a with
    | loginStart =>
        simp [AuthSlice.authReducer] at hl ⊢; exact ih hl
    | loginSuccess p =>
        simp [AuthSlice.authReducer]
    | loginFailure msg =>
        simp [AuthSlice.authReducer] at hl ⊢; exact ih hl
    | logoutAction =>
        simp [AuthSlice.authReducer, AuthSlice.authInitialState] at hl
    | clearError =>
        simp [AuthSlice.authReducer] at hl ⊢; exact ih hl
    | loginPending =>
        simp [AuthSlice.authReducer] at hl ⊢; exact ih hl
    | loginFulfilled r =>
        simp [AuthSlice.authReducer]
    | loginRejected msg =>
        simp [AuthSlice.authReducer] at hl ⊢; exact ih hl
    | logoutPending =>
        simp [AuthSlice.authReducer] at hl ⊢; exact ih hl
    | logoutFulfilled =>
        simp [AuthSlice.authReducer, AuthSlice.authInitialState] at hl
    | logoutRejected msg =>
        simp [AuthSlice.authReducer, AuthSlice.authInitialState] at hl
    | checkPending =>
        simp [AuthSlice.authReducer] at hl ⊢; exact ih hl
    | checkRejected =>
        simp [AuthSlice.authReducer] at hl ⊢; exact ih hl
    | checkFulfilled a =>
        obtain ⟨stor, rfl⟩ := hok
        cases hb : (truthy stor.access_token && truthy stor.username &&
            truthy stor.server_url) with
        | true =>
            have hsplit := hb
            rw [Bool.and_eq_true, Bool.and_eq_true] at hsplit
            obtain ⟨⟨ht, _⟩, _⟩ := hsplit
            simp [AuthSlice.authReducer, AuthService.checkAuthStatus, hb]
            rw [(jsOrNone_of_truthy ht).1]
            exact (jsOrNone_of_truthy ht).2
        | false =>
            simp [AuthSlice.authReducer, AuthService.checkAuthStatus, hb] at hl ⊢
            exact ih hl

/-- Witness for C5: the state after a `loginSuccess` dispatch is reachable,
logged-in, and carries a non-null token. -/
theorem auth_isLoggedIn_implies_token_witness :
    (AuthSlice.authReducer AuthSlice.authInitialState
        (.loginSuccess ⟨"tok", none, "demo", "https://demo.odoo.com", none⟩)).token
      ≠ none :=
  auth_isLoggedIn_implies_token
    (AuthSlice.ReachableAuth.step _ AuthSlice.ReachableAuth.init trivial) rfl

/-- Counterexample to claim C1 as stated: two overlapping
`authService.refreshToken` calls (lock-step interleaving of their await
points, both running to completion, refresh token persisted) issue two
network requests to the refresh endpoint — not at most one. -/
theorem refreshToken_single_flight_cex :
    ((TwoRefresh.run (.ok ⟨"newA", some "rotA"⟩) (.ok ⟨"newB", none⟩)
        [true, false, true, false, true, false]
        (TwoRefresh.initConfig
          { Storage.empty with refresh_token := some "rt" })).pcA).isDone = true ∧
    ((TwoRefresh.run (.ok ⟨"newA", some "rotA"⟩) (.ok ⟨"newB", none⟩)
        [true, false, true, false, true, false]
        (TwoRefresh.initConfig
          { Storage.empty with refresh_token := some "rt" })).pcB).isDone = true ∧
    ¬ ((TwoRefresh.run (.ok ⟨"newA", some "rotA"⟩) (.ok ⟨"newB", none⟩)
        [true, false, true, false, true, false]
        (TwoRefresh.initConfig
          { Storage.empty with refresh_token := some "rt" })).trace.countP
          Effect.isFetch ≤ 1) := by
  decide

/-- One step of one `refreshToken` call preserves the interleaving
invariant: the refresh token stays truthy in storage, a held read value is
truthy, and the fetches emitted by the step account exactly for the
program-counter progress. -/
theorem rcStep_preserves (net : HttpOutcome RefreshBody) (pc : TwoRefresh.RCPc)
    (st : Storage) (h : truthy st.refresh_token = true)
    (hpc : ∀ t, pc = .gotTok t → truthy t = true) :
    truthy (TwoRefresh.rcStep net pc st).2.1.refresh_token = true ∧
    (∀ t, (TwoRefresh.rcStep net pc st).1 = .gotTok t → truthy t = true) ∧
    (TwoRefresh.rcStep net pc st).2.2.countP Effect.isFetch +
        TwoRefresh.pcFetches pc = TwoRefresh.pcFetches (TwoRefresh.rcStep net pc st).1 := by
  cases pc with
  | start =>
      refine ⟨h, ?_, ?_⟩
      · intro t ht
        simp [TwoRefresh.rcStep] at ht
        rw [← ht]; exact h
      · simp [TwoRefresh.rcStep, TwoRefresh.pcFetches, Effect.isFetch]
  | gotTok t =>
      have htt : truthy t = true := hpc t rfl
      refine ⟨?_, ?_, ?_⟩ <;>
        simp [TwoRefresh.rcStep, htt, TwoRefresh.pcFetches, Effect.isFetch, h]
  | fetched =>
      cases net with
      | ok data =>
          by_cases hr : truthy data.refreshToken = true
          · have hd : data.refreshToken ≠ none := by
              cases hd : data.refreshToken with
              | none => rw [hd] at hr; simp [truthy] at hr
              | some v => simp
            refine ⟨?_, ?_, ?_⟩ <;>
              simp [TwoRefresh.rcStep, hr, TwoRefresh.pcFetches, Effect.isFetch]
          · simp only [Bool.not_eq_true] at hr
            refine ⟨?_, ?_, ?_⟩ <;>
              simp [TwoRefresh.rcStep, hr, TwoRefresh.pcFetches, Effect.isFetch, h]
      | httpError status a b =>
          refine ⟨h, ?_, ?_⟩ <;>
            simp [TwoRefresh.rcStep, TwoRefresh.pcFetches, Effect.isFetch]
      | networkFailure =>
          refine ⟨h, ?_, ?_⟩ <;>
            simp [TwoRefresh.rcStep, TwoRefresh.pcFetches, Effect.isFetch]
  | done r =>
      refine ⟨h, ?_, ?_⟩ <;>
        simp [TwoRefresh.rcStep, TwoRefresh.pcFetches, Effect.isFetch]

/-- Running any schedule preserves the interleaving invariant. -/
theorem run_inv (netA netB : HttpOutcome RefreshBody) (sched : List Bool)
    (c : TwoRefresh.Config) (h : TwoRefresh.Inv c) :
    TwoRefresh.Inv (TwoRefresh.run netA netB sched c) := by
  induction sched generalizing c with
  | nil => simpa [TwoRefresh.run] using h
  | cons b rest ih =>
    obtain ⟨h1, h2, h3, h4⟩ := h
    cases b with
    | true =>
        have hp := rcStep_preserves netA c.pcA c.stor h1 h2
        rcases hstep : TwoRefresh.rcStep netA c.pcA c.stor with ⟨pc', st', es⟩
        rw [hstep] at hp
        simp only [TwoRefresh.run, hstep, if_true]
        refine ih _ ⟨hp.1, hp.2.1, h3, ?_⟩
        show (c.trace ++ es).countP Effect.isFetch =
          TwoRefresh.pcFetches pc' + TwoRefresh.pcFetches c.pcB
        rw [List.countP_append, h4]
        have h5 := hp.2.2
        simp only at h5
        omega
    | false =>
        have hp := rcStep_preserves netB c.pcB c.stor h1 h3
        rcases hstep : TwoRefresh.rcStep netB c.pcB c.stor with ⟨pc', st', es⟩
        rw [hstep] at hp
        simp only [TwoRefresh.run, hstep, Bool.false_eq_true, if_false]
        refine ih _ ⟨hp.1, h2, hp.2.1, ?_⟩
        show (c.trace ++ es).countP Effect.isFetch =
          TwoRefresh.pcFetches c.pcA + TwoRefresh.pcFetches pc'
        rw [List.countP_append, h4]
        have h5 := hp.2.2
        simp only at h5
        omega

/-- Claim C1 (amended): `authService.refreshToken` provides no single-flight
guarantee — each call issues its own network request.  For every pair of
network oracles and every interleaving of two concurrent `refreshToken`
calls starting from a storage holding a refresh token, if both calls run to
completion then exactly two network requests to the refresh endpoint appear
in the trace.  (The `tokenRefreshPromise` wait in
`createApiClient.fetchWithAuth` only delays a request while a refresh it
already knows about is in flight; it does not deduplicate the refreshes
themselves.) -/
theorem refreshToken_concurrent_two_requests
    (netA netB : HttpOutcome RefreshBody) (sched : List Bool) (stor : Storage)
    (h : truthy stor.refresh_token = true)
    (hA : ((TwoRefresh.run netA netB sched (TwoRefresh.initConfig stor)).pcA).isDone
        = true)
    (hB : ((TwoRefresh.run netA netB sched (TwoRefresh.initConfig stor)).pcB).isDone
        = true) :
    (TwoRefresh.run netA netB sched (TwoRefresh.initConfig stor)).trace.countP
        Effect.isFetch = 2 := by
  have hinv := run_inv netA netB sched (TwoRefresh.initConfig stor)
    ⟨h, by simp [TwoRefresh.initConfig], by simp [TwoRefresh.initConfig],
     by simp [TwoRefresh.initConfig, TwoRefresh.pcFetches]⟩
  obtain ⟨-, -, -, h4⟩ := hinv
  cases hca : (TwoRefresh.run netA netB sched (TwoRefresh.initConfig stor)).pcA with
  | done rA =>
      cases hcb : (TwoRefresh.run netA netB sched (TwoRefresh.initConfig stor)).pcB with
      | done rB =>
          rw [hca, hcb] at h4
          simpa [TwoRefresh.pcFetches] using h4
      | start => rw [hcb] at hB; simp [TwoRefresh.RCPc.isDone] at hB
      | gotTok t => rw [hcb] at hB; simp [TwoRefresh.RCPc.isDone] at hB
      | fetched => rw [hcb] at hB; simp [TwoRefresh.RCPc.isDone] at hB
  | start => rw [hca] at hA; simp [TwoRefresh.RCPc.isDone] at hA
  | gotTok t => rw [hca] at hA; simp [TwoRefresh.RCPc.isDone] at hA
  | fetched => rw [hca] at hA; simp [TwoRefresh.RCPc.isDone] at hA

/-- Witness for C1: the lock-step interleaving of two completing refresh
calls carries exactly two refresh requests. -/
theorem refreshToken_concurrent_two_requests_witness :
    (TwoRefresh.run (.ok ⟨"newA", some "rotA"⟩) (.ok ⟨"newB", none⟩)
        [true, false, true, false, true, false]
        (TwoRefresh.initConfig
          { Storage.empty with refresh_token := some "rt" })).trace.countP
        Effect.isFetch = 2 :=
  refreshToken_concurrent_two_requests (.ok ⟨"newA", some "rotA"⟩)
    (.ok ⟨"newB", none⟩) [true, false, true, false, true, false]
    { Storage.empty with refresh_token := some "rt" }
    (by decide) (by decide) (by decide)
